import Mathlib

/-!
Shallow embedding of the Scholaro study-prep backend (nodejs_backend.js):
an Express application with four Mongo collections (users, test results,
universities, questions), bcrypt password hashing, JWT bearer tokens and a
set of JSON route handlers.  Each handler below is translated directly from
the corresponding Express route.  External libraries are modelled as
follows: bcrypt compare/hash and jwt sign/verify are passed to the handlers
as function parameters (the handlers only branch on their results); MongoDB
query operators are translated to list operations (find → filter, findOne →
find?, sort → insertionSort, limit → take, countDocuments → length of
filter); the PCRE engine behind the `$regex` operator with option `i` is,
like bcrypt and jwt, a function parameter of the handler that uses it,
and concrete demonstrations instantiate it with a fragment semantics
(literal characters plus the `.` metacharacter) only on patterns inside
that fragment, where the fragment agrees with the full engine.
JavaScript numbers are modelled as exact integers/rationals
(float64 rounding is not modelled; all quantities involved are small
integers for which float64 arithmetic is exact).  Mongo `_id` values are
modelled as naturals that grow with creation time (ObjectIds embed their
creation timestamp), so sorting by `_id` descending is sorting by recency.
-/

namespace Scholaro

/-- JSON values as produced by Express `res.json`; object fields keep their
insertion order, and fields whose JavaScript value is `undefined` are
omitted by serialization, which the handlers model by not emitting the
corresponding pair. -/
inductive Json where
  | null : Json
  | bool (b : Bool) : Json
  | num (n : Int) : Json
  | str (s : String) : Json
  | arr (elems : List Json) : Json
  | obj (fields : List (String × Json)) : Json

/-- The keys of a JSON object (empty for non-objects); used to state that a
response body does or does not carry a given field. -/
def Json.objKeys : Json → List String
  | .obj fields => fields.map Prod.fst
  | _ => []

/-- An HTTP response: status code plus JSON body, as produced by
`res.status(s).json(b)` (Express `res.json(b)` alone has status 200). -/
structure Response where
  status : Nat
  body : Json

/-- Error body `{ error: msg }`, the shape of every error response in the
backend. -/
def errObj (msg : String) : Json :=
  Json.obj [("error", Json.str msg)]

/-- A stored user document (collection `users`): the `password` field holds
the bcrypt hash, `role` is `"user"` or `"admin"` (schema default
`"user"`). -/
structure User where
  id : Nat
  name : String
  email : String
  password : String
  role : String
  createdAt : Nat

/-- The claims payload of a JWT issued at login:
`{ userId, email, role }`. -/
structure Claims where
  userId : Nat
  email : String
  role : String

/-- A stored test-result document (collection `testresults`).  `timeSpent`
is in minutes (schema default 0); `date` is the creation timestamp. -/
structure TestResult where
  id : Nat
  userId : Nat
  testType : String
  sectionName : String
  score : Int
  totalQuestions : Nat
  correctAnswers : Nat
  timeSpent : Int
  date : Nat

/-- The request body of POST /api/test-results; `timeSpent` may be absent,
in which case the schema default 0 applies. -/
structure TestResultInput where
  testType : String
  sectionName : String
  score : Int
  totalQuestions : Nat
  correctAnswers : Nat
  timeSpent : Option Int

/-- The `requirements` sub-document of a university (schema defaults
false). -/
structure Requirements where
  gre : Bool
  gmat : Bool
  ielts : Bool
  toefl : Bool

/-- A stored university document (collection `universities`); `ranking`,
`description` and `website` are optional in the schema. -/
structure University where
  id : Nat
  name : String
  country : String
  ranking : Option Int
  tuitionFee : String
  scholarships : List String
  requirements : Requirements
  description : Option String
  website : Option String

/-- A stored question document (collection `questions`); `explanation` is
optional in the schema, `difficulty` is easy/medium/hard. -/
structure Question where
  id : Nat
  testType : String
  sectionName : String
  question : String
  options : List String
  correctAnswer : Int
  explanation : Option String
  difficulty : String

/-- JavaScript `String.prototype.split(' ')` over the character list: split
on every single space, keeping empty pieces (so `""` splits to `[""]` and
`"Bearer "` splits to `["Bearer", ""]`). -/
def splitSpaceChars : List Char → List (List Char)
  | [] => [[]]
  | c :: cs =>
    match splitSpaceChars cs with
    | [] => [[]]
    | r :: rs => if c = ' ' then [] :: r :: rs else (c :: r) :: rs

/-- JavaScript `s.split(' ')` on a Lean string. -/
def jsSplitSpace (s : String) : List String :=
  (splitSpaceChars s.data).map (fun cs => String.mk cs)

/-- The token extraction of authenticateToken:
`const token = authHeader && authHeader.split(' ')[1]` followed by the
falsy test `if (!token)`.  `none` means the JS value was falsy (header
absent, no second split piece, or an empty-string token). -/
def getToken (authHeader : Option String) : Option String :=
  match authHeader with
  | none => none
  | some h =>
    match (jsSplitSpace h)[1]? with
    | none => none
    | some t => if t = "" then none else some t

/-- Result of the authenticateToken middleware: either an early rejection
response, or the verified claims stored into `req.user` before `next()`
runs the route handler. -/
inductive AuthResult where
  | reject (r : Response) : AuthResult
  | ok (c : Claims) : AuthResult

/-- The authenticateToken middleware.  `verify` models
`jwt.verify(token, JWT_SECRET, cb)`: `none` is the error case (invalid
signature, malformed, or expired token). -/
def authenticateToken (verify : String → Option Claims)
    (authHeader : Option String) : AuthResult :=
  match getToken authHeader with
  | none => .reject { status := 401, body := errObj "Access token required" }
  | some t =>
    match verify t with
    | none => .reject { status := 403, body := errObj "Invalid or expired token" }
    | some c => .ok c

/-- JavaScript truthiness of an optional query-string parameter, as used by
`if (country) ...`, `if (search) ...`, `if (difficulty) ...`: absent and
empty-string values are falsy. -/
def truthy : Option String → Option String
  | none => none
  | some s => if s = "" then none else some s

/-- JavaScript `Math.round`: round half toward positive infinity. -/
def jsRound (q : ℚ) : ℤ :=
  ⌊q + 1/2⌋

/-- The user document stored by POST /api/register:
`new User({name, email, password: hashedPassword})` with schema defaults
for `role` and `createdAt`. -/
def mkRegisteredUser (nid now : Nat) (name email hashedPassword : String) :
    User :=
  { id := nid, name := name, email := email, password := hashedPassword,
    role := "user", createdAt := now }

/-- POST /api/register.  `bcryptHash` models `bcrypt.hash(password, 10)`
for this request (bcrypt salts per call; the handler only stores the
digest it got back).  `nid`/`now` are the fresh document id and the
`createdAt` default.  Returns the response together with the users
collection after the request. -/
def apiRegister (bcryptHash : String → String) (users : List User)
    (name email password : String) (nid now : Nat) :
    Response × List User :=
  match users.find? (fun u => u.email = email) with
  | some _ => ({ status := 400, body := errObj "User already exists" }, users)
  | none =>
    ({ status := 201,
       body := Json.obj [("message", Json.str "User registered successfully")] },
     users ++ [mkRegisteredUser nid now name email (bcryptHash password)])

/-- POST /api/login.  `bcryptCompare` models
`bcrypt.compare(password, user.password)`; `sign` models
`jwt.sign({userId, email, role}, JWT_SECRET, {expiresIn: '24h'})`. -/
def apiLogin (bcryptCompare : String → String → Bool)
    (sign : Nat → String → String → String)
    (users : List User) (email password : String) : Response :=
  match users.find? (fun u => u.email = email) with
  | none => { status := 400, body := errObj "Invalid credentials" }
  | some user =>
    if bcryptCompare password user.password then
      { status := 200,
        body := Json.obj
          [("token", Json.str (sign user.id user.email user.role)),
           ("user", Json.obj
             [("id", Json.num user.id),
              ("name", Json.str user.name),
              ("email", Json.str user.email),
              ("role", Json.str user.role)])] }
    else
      { status := 400, body := errObj "Invalid credentials" }

/-- The test-result document stored by POST /api/test-results for the
authenticated user `uid`: `userId` comes from the token claims, `timeSpent`
falls back to the schema default 0 when absent from the body. -/
def mkTestResult (uid : Nat) (nid now : Nat) (input : TestResultInput) :
    TestResult :=
  { id := nid, userId := uid, testType := input.testType,
    sectionName := input.sectionName, score := input.score,
    totalQuestions := input.totalQuestions,
    correctAnswers := input.correctAnswers,
    timeSpent := input.timeSpent.getD 0, date := now }

/-- JSON serialization of a stored test-result document, as sent by
`res.json`. -/
def serializeTestResult (r : TestResult) : Json :=
  Json.obj
    [("_id", Json.num r.id),
     ("userId", Json.num r.userId),
     ("testType", Json.str r.testType),
     ("section", Json.str r.sectionName),
     ("score", Json.num r.score),
     ("totalQuestions", Json.num r.totalQuestions),
     ("correctAnswers", Json.num r.correctAnswers),
     ("timeSpent", Json.num r.timeSpent),
     ("date", Json.num r.date)]

/-- POST /api/test-results (behind authenticateToken).  Returns the
response together with the test-results collection after the request. -/
def apiTestResultsPost (verify : String → Option Claims)
    (authHeader : Option String) (results : List TestResult)
    (nid now : Nat) (input : TestResultInput) :
    Response × List TestResult :=
  match authenticateToken verify authHeader with
  | .reject r => (r, results)
  | .ok c =>
    let tr := mkTestResult c.userId nid now input
    ({ status := 201,
       body := Json.obj
         [("message", Json.str "Test result saved successfully"),
          ("result", serializeTestResult tr)] },
     results ++ [tr])

/-- Descending order on test-result timestamps, the `sort({ date: -1 })`
of GET /api/test-results. -/
def dateDesc (a b : TestResult) : Prop :=
  b.date ≤ a.date

instance : DecidableRel dateDesc := fun a b => Nat.decLe b.date a.date

instance : IsTotal TestResult dateDesc :=
  ⟨fun a b => Nat.le_total b.date a.date⟩

instance : IsTrans TestResult dateDesc :=
  ⟨fun _ _ _ h1 h2 => Nat.le_trans h2 h1⟩

/-- GET /api/test-results (behind authenticateToken):
`TestResult.find({userId}).sort({date: -1}).limit(10)`. -/
def apiTestResultsGet (verify : String → Option Claims)
    (authHeader : Option String) (results : List TestResult) : Response :=
  match authenticateToken verify authHeader with
  | .reject r => r
  | .ok c =>
    let out :=
      (List.insertionSort dateDesc
        (results.filter (fun r => r.userId = c.userId))).take 10
    { status := 200, body := Json.arr (out.map serializeTestResult) }

/-- GET /api/dashboard-stats (behind authenticateToken): counts the user's
results, averages their scores with float division and `Math.round`
(0 when there are none), and sums `timeSpent || 0`, also through
`Math.round`.  The two `reduce` calls are translated to `foldl`. -/
def apiDashboardStats (verify : String → Option Claims)
    (authHeader : Option String) (results : List TestResult) : Response :=
  match authenticateToken verify authHeader with
  | .reject r => r
  | .ok c =>
    let totalTests := (results.filter (fun r => r.userId = c.userId)).length
    let userResults := results.filter (fun r => r.userId = c.userId)
    let avgScore : ℚ :=
      if userResults.length > 0 then
        (userResults.foldl (fun sum r => sum + (r.score : ℚ)) 0) /
          userResults.length
      else 0
    let totalStudyTime : ℚ :=
      userResults.foldl (fun sum r => sum + (r.timeSpent : ℚ)) 0
    { status := 200,
      body := Json.obj
        [("testsCompleted", Json.num totalTests),
         ("averageScore", Json.num (jsRound avgScore)),
         ("totalStudyTime", Json.num (jsRound totalStudyTime))] }

/-- Case-insensitive match of one pattern character against one text
character under PCRE option `i`, for the regex fragment whose only
metacharacter is `.` (which matches any single character). -/
def regexCharMatch (p c : Char) : Bool :=
  p = '.' || p.toLower = c.toLower

/-- Does the fragment pattern match a prefix of the text?  (PCRE matching
of a pattern made of literals and `.` at a fixed start position.) -/
def matchesAt : List Char → List Char → Bool
  | [], _ => true
  | _ :: _, [] => false
  | p :: ps, c :: cs => regexCharMatch p c && matchesAt ps cs

/-- The behaviour of a PCRE engine under `$options: 'i'` on the fragment
of patterns built from literal characters and the `.` metacharacter:
unanchored case-insensitive search, i.e. the pattern matches starting at
some position of the text.  This is NOT a model of the full engine — on
patterns containing other metacharacters (`+`, `*`, `?`, brackets, …) a
real PCRE engine behaves differently.  It serves only to instantiate the
engine parameter of the universities handler in concrete demonstrations
whose patterns stay inside this fragment, where it agrees with PCRE. -/
def regexFragSearchI (pattern text : String) : Bool :=
  text.data.tails.any (fun suf => matchesAt pattern.data suf)

/-- Case-insensitive substring containment, the reading the specification
gives to the search filter: the needle, lowercased, is an infix of the
lowercased haystack. -/
def ciSubstr (hay needle : String) : Prop :=
  (needle.data.map Char.toLower) <:+: (hay.data.map Char.toLower)

instance (hay needle : String) : Decidable (ciSubstr hay needle) :=
  List.decidableInfix _ _

/-- Ascending order on the optional `ranking` field, the
`sort({ ranking: 1 })` of GET /api/universities; MongoDB sorts documents
missing the field before all documents that have it. -/
def rankingAsc (a b : University) : Prop :=
  match a.ranking, b.ranking with
  | none, _ => True
  | some _, none => False
  | some x, some y => x ≤ y

instance : DecidableRel rankingAsc := fun a b => by
  unfold rankingAsc
  match a.ranking, b.ranking with
  | none, _ => exact inferInstanceAs (Decidable True)
  | some _, none => exact inferInstanceAs (Decidable False)
  | some x, some y => exact inferInstanceAs (Decidable (x ≤ y))

instance : IsTotal University rankingAsc := by
  constructor
  intro a b
  unfold rankingAsc
  match a.ranking, b.ranking with
  | none, _ => exact Or.inl trivial
  | some _, none => exact Or.inr trivial
  | some x, some y => exact Int.le_total x y

instance : IsTrans University rankingAsc := by
  constructor
  intro a b c hab hbc
  unfold rankingAsc at *
  match ha : a.ranking, hb : b.ranking, hc : c.ranking with
  | none, _, _ => exact trivial
  | some x, some y, some z =>
    simp only [ha, hb, hc] at hab hbc ⊢
    exact Int.le_trans hab hbc
  | some x, some y, none => simp only [hb, hc] at hbc
  | some x, none, _ => simp only [ha, hb] at hab

/-- Serialization of the optional fields that mongoose documents carry only
when set: an absent (`undefined`) field is dropped from `res.json`
output. -/
def optField (key : String) (v : Option Json) : List (String × Json) :=
  match v with
  | none => []
  | some j => [(key, j)]

/-- JSON serialization of a stored university document. -/
def serializeUniversity (u : University) : Json :=
  Json.obj
    ([("_id", Json.num u.id),
      ("name", Json.str u.name),
      ("country", Json.str u.country)] ++
     optField "ranking" (u.ranking.map Json.num) ++
     [("tuitionFee", Json.str u.tuitionFee),
      ("scholarships", Json.arr (u.scholarships.map Json.str)),
      ("requirements", Json.obj
        [("gre", Json.bool u.requirements.gre),
         ("gmat", Json.bool u.requirements.gmat),
         ("ielts", Json.bool u.requirements.ielts),
         ("toefl", Json.bool u.requirements.toefl)])] ++
     optField "description" (u.description.map Json.str) ++
     optField "website" (u.website.map Json.str))

/-- The filter predicate GET /api/universities builds from its query
parameters: exact equality on `country` when that parameter is truthy,
and `{ $regex: search, $options: 'i' }` on `name` when `search` is
truthy.  `regexTest pattern text` models the external PCRE engine MongoDB
applies for `$regex` with option `i` (the backend passes the
user-supplied `search` parameter to it verbatim); like bcrypt and jwt it
is a parameter, since its code is not part of this repository. -/
def universityMatches (regexTest : String → String → Bool)
    (country search : Option String) (u : University) : Bool :=
  (match truthy country with
   | none => true
   | some c => u.country = c) &&
  (match truthy search with
   | none => true
   | some s => regexTest s u.name)

/-- GET /api/universities:
`University.find(filter).sort({ ranking: 1 })`. -/
def apiUniversitiesGet (regexTest : String → String → Bool)
    (unis : List University) (country search : Option String) : Response :=
  let out :=
    List.insertionSort rankingAsc
      (unis.filter (universityMatches regexTest country search))
  { status := 200, body := Json.arr (out.map serializeUniversity) }

/-- POST /api/universities (behind authenticateToken): requires
`req.user.role === 'admin'`, else 403; persists `new University(req.body)`.
Returns the response together with the universities collection after the
request. -/
def apiUniversitiesPost (verify : String → Option Claims)
    (authHeader : Option String) (unis : List University)
    (body : University) : Response × List University :=
  match authenticateToken verify authHeader with
  | .reject r => (r, unis)
  | .ok c =>
    if c.role ≠ "admin" then
      ({ status := 403, body := errObj "Admin access required" }, unis)
    else
      ({ status := 201,
         body := Json.obj
           [("message", Json.str "University added successfully"),
            ("university", serializeUniversity body)] },
       unis ++ [body])

/-- The full JSON field list of a stored question document. -/
def questionFields (q : Question) : List (String × Json) :=
  [("_id", Json.num q.id),
   ("testType", Json.str q.testType),
   ("section", Json.str q.sectionName),
   ("question", Json.str q.question),
   ("options", Json.arr (q.options.map Json.str)),
   ("correctAnswer", Json.num q.correctAnswer)] ++
  optField "explanation" (q.explanation.map Json.str) ++
  [("difficulty", Json.str q.difficulty)]

/-- The exclusion projection `.select('-correctAnswer -explanation')`:
every field except the excluded paths. -/
def omitFields (excluded : List String) (fields : List (String × Json)) :
    List (String × Json) :=
  fields.filter (fun kv => !excluded.contains kv.1)

/-- A question as serialized by GET /api/questions/:testType/:section —
all fields except `correctAnswer` and `explanation`. -/
def serializeQuestionPublic (q : Question) : Json :=
  Json.obj (omitFields ["correctAnswer", "explanation"] (questionFields q))

/-- Descending order on question ids, the `sort({ _id: -1 })` of
GET /api/questions (ObjectIds grow with creation time, so this is
most-recently-created first). -/
def idDesc (a b : Question) : Prop :=
  b.id ≤ a.id

instance : DecidableRel idDesc := fun a b => Nat.decLe b.id a.id

instance : IsTotal Question idDesc :=
  ⟨fun a b => Nat.le_total b.id a.id⟩

instance : IsTrans Question idDesc :=
  ⟨fun _ _ _ h1 h2 => Nat.le_trans h2 h1⟩

/-- GET /api/questions/:testType/:section:
`Question.find(filter).select('-correctAnswer -explanation')
.limit(parseInt(limit)).sort({_id: -1})` with
`const { limit = 10, difficulty } = req.query`.  A mongoose query applies
sort before limit regardless of the order of the builder calls.  The
`limit` parameter is modelled as the already-parsed value of `parseInt` on
a numeric parameter (`none` = parameter absent, so the destructuring
default 10 applies); non-numeric limit strings are outside this model. -/
def apiQuestionsGet (questions : List Question)
    (testType sectionName : String) (limit : Option Nat)
    (difficulty : Option String) : Response :=
  let filtered := questions.filter (fun q =>
    q.testType = testType && q.sectionName = sectionName &&
    (match truthy difficulty with
     | none => true
     | some d => q.difficulty = d))
  let out := (List.insertionSort idDesc filtered).take (limit.getD 10)
  { status := 200, body := Json.arr (out.map serializeQuestionPublic) }

/-- POST /api/check-answer: `Question.findById(questionId)`, 404 when
absent, else `correct: question.correctAnswer === userAnswer` plus the
stored correct index and explanation. -/
def apiCheckAnswer (questions : List Question) (questionId : Nat)
    (userAnswer : Int) : Response :=
  match questions.find? (fun q => q.id = questionId) with
  | none => { status := 404, body := errObj "Question not found" }
  | some q =>
    { status := 200,
      body := Json.obj
        ([("correct", Json.bool (decide (q.correctAnswer = userAnswer))),
          ("correctAnswer", Json.num q.correctAnswer)] ++
         optField "explanation" (q.explanation.map Json.str)) }

/-- Demonstration claims of an ordinary user, for concrete witnesses. -/
def demoClaimsA : Claims :=
  { userId := 1, email := "a@example.com", role := "user" }

/-- Demonstration claims of a second ordinary user. -/
def demoClaimsB : Claims :=
  { userId := 2, email := "b@example.com", role := "user" }

/-- Demonstration claims of an admin. -/
def demoClaimsAdmin : Claims :=
  { userId := 3, email := "root@example.com", role := "admin" }

/-- A demonstration token verifier recognising three fixed tokens. -/
def demoVerify : String → Option Claims := fun t =>
  if t = "tokenA" then some demoClaimsA
  else if t = "tokenB" then some demoClaimsB
  else if t = "tokenAdmin" then some demoClaimsAdmin
  else none

/-- A demonstration stand-in for one bcrypt.hash call. -/
def demoHash : String → String := fun p => "bcrypt-digest-of-" ++ p

/-- The bcrypt.compare matching demoHash digests. -/
def demoCompare : String → String → Bool := fun p digest =>
  digest = "bcrypt-digest-of-" ++ p

/-- A demonstration jwt.sign. -/
def demoSign : Nat → String → String → String := fun _ _ _ => "signed-token"

/-- A stored result of user 1 (score 80, 30 minutes). -/
def demoResult1 : TestResult :=
  { id := 1, userId := 1, testType := "GRE", sectionName := "Verbal",
    score := 80, totalQuestions := 10, correctAnswers := 8,
    timeSpent := 30, date := 100 }

/-- A stored result of user 1 (score 90, 45 minutes). -/
def demoResult2 : TestResult :=
  { id := 2, userId := 1, testType := "GRE", sectionName := "Quantitative",
    score := 90, totalQuestions := 10, correctAnswers := 9,
    timeSpent := 45, date := 200 }

/-- A stored result of user 2. -/
def demoResult3 : TestResult :=
  { id := 3, userId := 2, testType := "IELTS", sectionName := "Reading",
    score := 70, totalQuestions := 10, correctAnswers := 7,
    timeSpent := 20, date := 150 }

/-- A demonstration test-results collection with two owners. -/
def demoResults : List TestResult := [demoResult1, demoResult2, demoResult3]

/-- A registered demonstration user. -/
def demoUserAlice : User :=
  mkRegisteredUser 1 0 "Alice" "alice@example.com" (demoHash "secret")

/-- A demonstration question with a stored answer and explanation. -/
def demoQuestion : Question :=
  { id := 5, testType := "GRE", sectionName := "Quantitative",
    question := "If x + y = 10 and x - y = 4, what is the value of x?",
    options := ["3", "5", "7", "9"], correctAnswer := 2,
    explanation := some "Adding the equations gives 2x = 14, so x = 7.",
    difficulty := "easy" }

/-- A demonstration university record. -/
def demoUniversity : University :=
  { id := 7, name := "Oxford University", country := "UK",
    ranking := some 3, tuitionFee := "28370/year",
    scholarships := ["Rhodes Scholarship"],
    requirements := { gre := false, gmat := false, ielts := true, toefl := false },
    description := none, website := none }

/-- A university whose name has no dot, used against the search filter. -/
def uniAb : University :=
  { id := 1, name := "ab", country := "X", ranking := some 1,
    tuitionFee := "0", scholarships := [],
    requirements := { gre := false, gmat := false, ielts := false, toefl := false },
    description := none, website := none }

/-- A demonstration test-result submission body. -/
def demoInput : TestResultInput :=
  { testType := "GRE", sectionName := "Verbal", score := 75,
    totalQuestions := 10, correctAnswers := 7, timeSpent := some 25 }

/-- C1: for every login request whose email matches no stored account, and
for every login request whose email matches an account but whose password
fails bcrypt verification against the stored hash, the response is the
same status-400 failure with the identical generic body
`{error: "Invalid credentials"}` (the status the specification's taxonomy
calls Unauthorized), so the two failure causes are indistinguishable to
the caller. -/
theorem login_failure_indistinguishable
    (bcryptCompare : String → String → Bool)
    (sign : Nat → String → String → String)
    (users : List User) (email password : String)
    (h : ∀ u ∈ users, u.email = email →
      bcryptCompare password u.password = false) :
    apiLogin bcryptCompare sign users email password =
      { status := 400, body := errObj "Invalid credentials" } := by
  unfold apiLogin
  cases hf : users.find? (fun u => u.email = email) with
  | none => rfl
  | some u =>
    have hmem : u ∈ users := List.mem_of_find?_eq_some hf
    have hpred := List.find?_some hf
    simp only [decide_eq_true_eq] at hpred
    simp [h u hmem hpred]

/-- Witness for C1: on a store holding only Alice, a login with Alice's
email and a wrong password and a login with an unknown email produce the
very same response. -/
theorem login_failure_indistinguishable_witness :
    apiLogin demoCompare demoSign [demoUserAlice] "alice@example.com"
        "wrong-password" =
      { status := 400, body := errObj "Invalid credentials" } ∧
    apiLogin demoCompare demoSign [demoUserAlice] "bob@example.com"
        "secret" =
      { status := 400, body := errObj "Invalid credentials" } :=
  ⟨login_failure_indistinguishable demoCompare demoSign [demoUserAlice]
      "alice@example.com" "wrong-password" (by decide),
   login_failure_indistinguishable demoCompare demoSign [demoUserAlice]
      "bob@example.com" "secret" (by decide)⟩

/-- A key listed in the exclusions never appears among the keys of an
exclusion-projected field list. -/
theorem omitFields_key_absent (excluded : List String)
    (fields : List (String × Json)) (k : String) (hk : k ∈ excluded) :
    k ∉ (omitFields excluded fields).map Prod.fst := by
  intro hmem
  rcases List.mem_map.mp hmem with ⟨kv, hkv, rfl⟩
  have hf := List.of_mem_filter hkv
  simp only [Bool.not_eq_true'] at hf
  have : kv.1 ∉ excluded := by simpa using hf
  exact this hk

/-- C2: every list-questions response, whatever the test type, section,
difficulty filter and limit, serializes its records without a
`correctAnswer` or `explanation` key, and the underlying records are
ordered by descending `_id`, i.e. most-recently-created first. -/
theorem questions_response_hides_answers_and_is_newest_first
    (questions : List Question) (testType sectionName : String)
    (limit : Option Nat) (difficulty : Option String) :
    ∃ out : List Question,
      apiQuestionsGet questions testType sectionName limit difficulty =
        { status := 200, body := Json.arr (out.map serializeQuestionPublic) } ∧
      (∀ j ∈ out.map serializeQuestionPublic,
        "correctAnswer" ∉ j.objKeys ∧ "explanation" ∉ j.objKeys) ∧
      List.Sorted idDesc out := by
  refine ⟨_, rfl, ?_, ?_⟩
  · intro j hj
    rcases List.mem_map.mp hj with ⟨q, _, rfl⟩
    exact ⟨omitFields_key_absent _ _ _ (by simp),
           omitFields_key_absent _ _ _ (by simp)⟩
  · exact (List.sorted_insertionSort idDesc _).sublist (List.take_sublist _ _)

/-- C10: a list-questions request without a limit query parameter gets the
destructuring default of 10, so the response holds at most ten
questions. -/
theorem questions_default_limit_ten
    (questions : List Question) (testType sectionName : String)
    (difficulty : Option String) :
    ∃ out : List Question,
      apiQuestionsGet questions testType sectionName none difficulty =
        { status := 200, body := Json.arr (out.map serializeQuestionPublic) } ∧
      out.length ≤ 10 := by
  refine ⟨_, rfl, ?_⟩
  calc (List.take 10 _).length ≤ 10 := List.length_take_le _ _

/-- C3: an authenticated list-test-results response returns only results
owned by the token's account, at most ten of them, newest first by
timestamp; moreover a submission stores exactly one record owned by the
submitting token's account, so a result submitted as account A (with
A ≠ B) never appears in account B's list. -/
theorem testResults_list_owned_capped_newest_first
    (verify : String → Option Claims) (authHeader : Option String)
    (c : Claims) (results : List TestResult)
    (hauth : authenticateToken verify authHeader = .ok c) :
    ∃ out : List TestResult,
      apiTestResultsGet verify authHeader results =
        { status := 200, body := Json.arr (out.map serializeTestResult) } ∧
      (∀ r ∈ out, r.userId = c.userId) ∧
      out.length ≤ 10 ∧
      List.Sorted dateDesc out ∧
      (∀ (verify2 : String → Option Claims) (authHeader2 : Option String)
          (c2 : Claims) (store : List TestResult) (nid now : Nat)
          (input : TestResultInput),
        authenticateToken verify2 authHeader2 = .ok c2 →
        (apiTestResultsPost verify2 authHeader2 store nid now input).2 =
          store ++ [mkTestResult c2.userId nid now input]) ∧
      (∀ (c2 : Claims) (nid now : Nat) (input : TestResultInput),
        c2.userId ≠ c.userId → mkTestResult c2.userId nid now input ∉ out) := by
  unfold apiTestResultsGet
  rw [hauth]
  refine ⟨_, rfl, ?_, ?_, ?_, ?_, ?_⟩
  · intro r hr
    have hr2 : r ∈ List.insertionSort dateDesc
        (results.filter (fun r => r.userId = c.userId)) :=
      List.take_subset _ _ hr
    have hr3 : r ∈ results.filter (fun r => r.userId = c.userId) :=
      (List.perm_insertionSort dateDesc _).mem_iff.mp hr2
    have := List.of_mem_filter hr3
    simpa using this
  · exact List.length_take_le _ _
  · exact (List.sorted_insertionSort dateDesc _).sublist (List.take_sublist _ _)
  · intro verify2 authHeader2 c2 store nid now input hauth2
    unfold apiTestResultsPost
    rw [hauth2]
  · intro c2 nid now input hne hmem
    have hr2 : mkTestResult c2.userId nid now input ∈
        List.insertionSort dateDesc
          (results.filter (fun r => r.userId = c.userId)) :=
      List.take_subset _ _ hmem
    have hr3 := (List.perm_insertionSort dateDesc _).mem_iff.mp hr2
    have := List.of_mem_filter hr3
    simp only [mkTestResult, decide_eq_true_eq] at this
    exact hne this

/-- Witness for C3: user B's token over a store holding results of users
1 and 2 yields a list with the stated shape and properties. -/
theorem testResults_list_owned_capped_newest_first_witness :
    authenticateToken demoVerify (some "Bearer tokenB") = .ok demoClaimsB ∧
    (∃ out : List TestResult,
      apiTestResultsGet demoVerify (some "Bearer tokenB") demoResults =
        { status := 200, body := Json.arr (out.map serializeTestResult) } ∧
      (∀ r ∈ out, r.userId = demoClaimsB.userId) ∧
      out.length ≤ 10 ∧
      List.Sorted dateDesc out ∧
      (∀ (verify2 : String → Option Claims) (authHeader2 : Option String)
          (c2 : Claims) (store : List TestResult) (nid now : Nat)
          (input : TestResultInput),
        authenticateToken verify2 authHeader2 = .ok c2 →
        (apiTestResultsPost verify2 authHeader2 store nid now input).2 =
          store ++ [mkTestResult c2.userId nid now input]) ∧
      (∀ (c2 : Claims) (nid now : Nat) (input : TestResultInput),
        c2.userId ≠ demoClaimsB.userId →
          mkTestResult c2.userId nid now input ∉ out)) :=
  ⟨rfl, testResults_list_owned_capped_newest_first demoVerify
      (some "Bearer tokenB") demoClaimsB demoResults rfl⟩

/-- C4: a registration with an email equal to a stored account's email
responds with status 400 (the specification's Conflict) and stores
nothing; otherwise the handler persists the new account carrying the
bcrypt hash and responds 201 with a body that has no password field.
Consequently registering the same email twice succeeds the first time and
yields the Conflict response the second. -/
theorem register_conflict_or_create (bcryptHash : String → String)
    (users : List User) (name email password : String) (nid now : Nat) :
    ((∃ u ∈ users, u.email = email) →
      apiRegister bcryptHash users name email password nid now =
        ({ status := 400, body := errObj "User already exists" }, users)) ∧
    ((∀ u ∈ users, u.email ≠ email) →
      apiRegister bcryptHash users name email password nid now =
        ({ status := 201,
           body := Json.obj
             [("message", Json.str "User registered successfully")] },
         users ++ [mkRegisteredUser nid now name email
           (bcryptHash password)]) ∧
      "password" ∉ (Json.obj
        [("message", Json.str "User registered successfully")]).objKeys) ∧
    ((∀ u ∈ users, u.email ≠ email) →
      ∀ (name2 password2 : String) (nid2 now2 : Nat),
        (apiRegister bcryptHash
          (users ++ [mkRegisteredUser nid now name email
            (bcryptHash password)]) name2 email password2 nid2 now2).1 =
        { status := 400, body := errObj "User already exists" }) := by
  refine ⟨?_, ?_, ?_⟩
  · rintro ⟨u, hu, he⟩
    unfold apiRegister
    cases hf : users.find? (fun u => u.email = email) with
    | none =>
      have := List.find?_eq_none.mp hf u hu
      simp [he] at this
    | some w => rfl
  · intro h
    have hf : users.find? (fun u => u.email = email) = none :=
      List.find?_eq_none.mpr (fun u hu => by simpa using h u hu)
    refine ⟨?_, by simp [Json.objKeys]⟩
    unfold apiRegister
    rw [hf]
  · intro h name2 password2 nid2 now2
    unfold apiRegister
    cases hf : (users ++ [mkRegisteredUser nid now name email
        (bcryptHash password)]).find? (fun u => u.email = email) with
    | none =>
      have := List.find?_eq_none.mp hf
        (mkRegisteredUser nid now name email (bcryptHash password))
        (List.mem_append_right _ (List.mem_singleton_self _))
      simp [mkRegisteredUser] at this
    | some w => rfl

/-- Witness for C4: registering Alice's email on an empty store succeeds
with the stated 201 response, and a second registration with the same
email hits the Conflict response. -/
theorem register_conflict_or_create_witness :
    (∀ u ∈ ([] : List User), u.email ≠ "alice@example.com") ∧
    apiRegister demoHash [] "Alice" "alice@example.com" "secret" 1 0 =
      ({ status := 201,
         body := Json.obj
           [("message", Json.str "User registered successfully")] },
       [demoUserAlice]) ∧
    (apiRegister demoHash [demoUserAlice] "Bob" "alice@example.com"
        "other" 2 1).1 =
      { status := 400, body := errObj "User already exists" } := by
  have hempty : ∀ u ∈ ([] : List User), u.email ≠ "alice@example.com" := by
    intro u hu
    cases hu
  refine ⟨hempty, ?_, ?_⟩
  · exact ((register_conflict_or_create demoHash [] "Alice"
      "alice@example.com" "secret" 1 0).2.1 hempty).1
  · exact (register_conflict_or_create demoHash [] "Alice"
      "alice@example.com" "secret" 1 0).2.2 hempty "Bob" "other" 2 1

/-- C5: an add-university request with a missing or unverifiable token is
rejected by the guard with the guard's own response — whose status is
401 or 403 — and the collection is unchanged; a verified token whose role
is not admin gets 403, again with the collection unchanged; a verified
admin token persists the record and gets 201. -/
theorem universities_post_requires_admin
    (verify : String → Option Claims) (authHeader : Option String)
    (unis : List University) (body : University) :
    (∀ r, authenticateToken verify authHeader = .reject r →
      apiUniversitiesPost verify authHeader unis body = (r, unis) ∧
      (r.status = 401 ∨ r.status = 403)) ∧
    (∀ c, authenticateToken verify authHeader = .ok c → c.role ≠ "admin" →
      apiUniversitiesPost verify authHeader unis body =
        ({ status := 403, body := errObj "Admin access required" }, unis)) ∧
    (∀ c, authenticateToken verify authHeader = .ok c → c.role = "admin" →
      apiUniversitiesPost verify authHeader unis body =
        ({ status := 201,
           body := Json.obj
             [("message", Json.str "University added successfully"),
              ("university", serializeUniversity body)] },
         unis ++ [body])) := by
  refine ⟨?_, ?_, ?_⟩
  · intro r hr
    constructor
    · unfold apiUniversitiesPost
      rw [hr]
    · unfold authenticateToken at hr
      cases ht : getToken authHeader with
      | none =>
        rw [ht] at hr
        cases hr
        exact Or.inl rfl
      | some t =>
        cases hv : verify t with
        | none =>
          simp only [ht, hv] at hr
          cases hr
          exact Or.inr rfl
        | some c =>
          simp only [ht, hv] at hr
          cases hr
  · intro c hc hrole
    unfold apiUniversitiesPost
    rw [hc]
    simp [hrole]
  · intro c hc hrole
    unfold apiUniversitiesPost
    rw [hc]
    simp [hrole]

/-- Witness for C5: with no Authorization header the guard's 401 response
comes back and nothing is stored; with user B's token the handler answers
403 and nothing is stored; with the admin token the record is appended
under a 201. -/
theorem universities_post_requires_admin_witness :
    (authenticateToken demoVerify none =
      .reject { status := 401, body := errObj "Access token required" }) ∧
    apiUniversitiesPost demoVerify none [] demoUniversity =
      ({ status := 401, body := errObj "Access token required" }, []) ∧
    (authenticateToken demoVerify (some "Bearer tokenB") =
      .ok demoClaimsB) ∧
    apiUniversitiesPost demoVerify (some "Bearer tokenB") [] demoUniversity =
      ({ status := 403, body := errObj "Admin access required" }, []) ∧
    (authenticateToken demoVerify (some "Bearer tokenAdmin") =
      .ok demoClaimsAdmin) ∧
    apiUniversitiesPost demoVerify (some "Bearer tokenAdmin") []
        demoUniversity =
      ({ status := 201,
         body := Json.obj
           [("message", Json.str "University added successfully"),
            ("university", serializeUniversity demoUniversity)] },
       [demoUniversity]) := by
  refine ⟨rfl, ?_, rfl, ?_, rfl, ?_⟩
  · exact ((universities_post_requires_admin demoVerify none []
      demoUniversity).1 _ rfl).1
  · exact (universities_post_requires_admin demoVerify (some "Bearer tokenB")
      [] demoUniversity).2.1 demoClaimsB rfl (by decide)
  · exact (universities_post_requires_admin demoVerify
      (some "Bearer tokenAdmin") [] demoUniversity).2.2 demoClaimsAdmin rfl rfl

/-- C6: a check-answer request whose question id matches no stored
question fails with 404; otherwise the response is 200 with
`correct` true exactly when the submitted index equals the stored
correct-answer index, and it carries the stored correct index and, when
one is stored, the stored explanation — in the correct and incorrect
cases alike. -/
theorem checkAnswer_notfound_else_grades_and_reveals
    (questions : List Question) (questionId : Nat) (userAnswer : Int) :
    ((∀ q ∈ questions, q.id ≠ questionId) →
      apiCheckAnswer questions questionId userAnswer =
        { status := 404, body := errObj "Question not found" }) ∧
    (∀ q, questions.find? (fun q => q.id = questionId) = some q →
      apiCheckAnswer questions questionId userAnswer =
        { status := 200,
          body := Json.obj
            ([("correct", Json.bool (decide (q.correctAnswer = userAnswer))),
              ("correctAnswer", Json.num q.correctAnswer)] ++
             optField "explanation" (q.explanation.map Json.str)) } ∧
      (decide (q.correctAnswer = userAnswer) = true ↔
        q.correctAnswer = userAnswer)) := by
  constructor
  · intro h
    have hf : questions.find? (fun q => q.id = questionId) = none :=
      List.find?_eq_none.mpr (fun q hq => by simpa using h q hq)
    unfold apiCheckAnswer
    rw [hf]
  · intro q hq
    constructor
    · unfold apiCheckAnswer
      rw [hq]
    · exact decide_eq_true_iff

/-- Witness for C6: on a store holding the demonstration question (correct
index 2), an unknown id yields 404, the correct submission 2 is graded
true, the wrong submission 1 is graded false, and both graded responses
carry the stored index and explanation. -/
theorem checkAnswer_notfound_else_grades_and_reveals_witness :
    apiCheckAnswer [demoQuestion] 99 2 =
      { status := 404, body := errObj "Question not found" } ∧
    apiCheckAnswer [demoQuestion] 5 2 =
      { status := 200,
        body := Json.obj
          [("correct", Json.bool true),
           ("correctAnswer", Json.num 2),
           ("explanation",
            Json.str "Adding the equations gives 2x = 14, so x = 7.")] } ∧
    apiCheckAnswer [demoQuestion] 5 1 =
      { status := 200,
        body := Json.obj
          [("correct", Json.bool false),
           ("correctAnswer", Json.num 2),
           ("explanation",
            Json.str "Adding the equations gives 2x = 14, so x = 7.")] } := by
  refine ⟨?_, ?_, ?_⟩
  · exact (checkAnswer_notfound_else_grades_and_reveals [demoQuestion] 99
      2).1 (by decide)
  · exact ((checkAnswer_notfound_else_grades_and_reveals [demoQuestion] 5
      2).2 demoQuestion rfl).1
  · exact ((checkAnswer_notfound_else_grades_and_reveals [demoQuestion] 5
      1).2 demoQuestion rfl).1

/-- A left fold of rational additions is the sum of the mapped list. -/
theorem foldl_add_eq_sum {α : Type} (f : α → ℚ) (l : List α) (init : ℚ) :
    l.foldl (fun s r => s + f r) init = init + (l.map f).sum := by
  induction l generalizing init with
  | nil => simp
  | cons a t ih => simp [ih, add_assoc]

/-- Math.round of an integer-valued quantity is that integer. -/
theorem jsRound_intCast (n : ℤ) : jsRound (n : ℚ) = n := by
  unfold jsRound
  rw [add_comm, Int.floor_add_int]
  norm_num

/-- Math.round fixes zero. -/
theorem jsRound_zero : jsRound 0 = 0 := by
  simpa using jsRound_intCast 0

/-- Summing integer values after casting to the rationals is the cast of
the integer sum. -/
theorem map_intCast_sum {α : Type} (g : α → ℤ) (l : List α) :
    (l.map (fun r => ((g r : ℤ) : ℚ))).sum = (((l.map g).sum : ℤ) : ℚ) := by
  calc (l.map (fun r => ((g r : ℤ) : ℚ))).sum
      = ((l.map g).map (fun z : ℤ => (z : ℚ))).sum := by
        rw [List.map_map]
        rfl
    _ = (((l.map g).sum : ℤ) : ℚ) := (Int.cast_list_sum _).symm

/-- C7: an authenticated dashboard-stats response, computed over exactly
the token account's results, reports testsCompleted as the count of those
results, averageScore as the arithmetic mean of their scores rounded by
Math.round (0 with no results), and totalStudyTime as the plain sum of
their time-spent minutes. -/
theorem dashboard_stats_per_account
    (verify : String → Option Claims) (authHeader : Option String)
    (c : Claims) (results : List TestResult)
    (hauth : authenticateToken verify authHeader = .ok c) :
    apiDashboardStats verify authHeader results =
      { status := 200,
        body := Json.obj
          [("testsCompleted",
            Json.num ((results.filter (fun r => r.userId = c.userId)).length
              : ℤ)),
           ("averageScore",
            Json.num
              (if (results.filter (fun r => r.userId = c.userId)).length = 0
               then 0
               else jsRound
                 ((((results.filter (fun r => r.userId = c.userId)).map
                     (fun r => (r.score : ℚ))).sum) /
                  ((results.filter (fun r => r.userId = c.userId)).length
                    : ℚ)))),
           ("totalStudyTime",
            Json.num (((results.filter (fun r => r.userId = c.userId)).map
              (fun r => r.timeSpent)).sum))] } := by
  unfold apiDashboardStats
  rw [hauth]
  simp only [foldl_add_eq_sum, zero_add]
  rw [map_intCast_sum (fun r : TestResult => r.timeSpent), jsRound_intCast]
  by_cases hlen :
    (results.filter (fun r => r.userId = c.userId)).length = 0
  · simp [hlen, jsRound_zero]
  · simp [hlen, Nat.pos_of_ne_zero hlen]

/-- Witness for C7: user A owns the results with scores 80 and 90 and
times 30 and 45, so the stats are 2 tests, average 85, 75 minutes; the
admin account owns no results, so its stats are 0, 0, 0. -/
theorem dashboard_stats_per_account_witness :
    apiDashboardStats demoVerify (some "Bearer tokenA") demoResults =
      { status := 200,
        body := Json.obj
          [("testsCompleted", Json.num 2),
           ("averageScore", Json.num 85),
           ("totalStudyTime", Json.num 75)] } ∧
    apiDashboardStats demoVerify (some "Bearer tokenAdmin") demoResults =
      { status := 200,
        body := Json.obj
          [("testsCompleted", Json.num 0),
           ("averageScore", Json.num 0),
           ("totalStudyTime", Json.num 0)] } := by
  constructor
  · have h := dashboard_stats_per_account demoVerify (some "Bearer tokenA")
      demoClaimsA demoResults rfl
    rw [h]
    norm_num [demoResults, demoResult1, demoResult2, demoResult3,
      demoClaimsA, jsRound, List.filter]
  · have h := dashboard_stats_per_account demoVerify
      (some "Bearer tokenAdmin") demoClaimsAdmin demoResults rfl
    rw [h]
    norm_num [demoResults, demoResult1, demoResult2, demoResult3,
      demoClaimsAdmin, List.filter]

/-- C8 counterexample: the search filter applies the search string as a
regular expression, not as a literal substring.  The engine is
instantiated with the literal-and-dot fragment semantics, which agrees
with PCRE on the pattern "." used here: with the single stored university
named "ab", the request with search string "." matches (any PCRE engine
matches `/./i` against "ab") and returns that record, although "ab" does
not contain "." as a (case-insensitive) substring. -/
theorem universities_search_is_regex_not_substring :
    regexFragSearchI "." uniAb.name = true ∧
    apiUniversitiesGet regexFragSearchI [uniAb] none (some ".") =
      { status := 200, body := Json.arr [serializeUniversity uniAb] } ∧
    ¬ ciSubstr uniAb.name "." := by
  exact ⟨rfl, rfl, by decide⟩

/-- C8 amended: whatever case-insensitive regex engine backs `$regex`,
every returned record satisfies the country filter exactly when one is
given, matches the search string under that engine when one is given, and
the results are sorted by ranking ascending. -/
theorem universities_filters_and_ranking_sorted
    (regexTest : String → String → Bool)
    (unis : List University) (country search : Option String) :
    ∃ out : List University,
      apiUniversitiesGet regexTest unis country search =
        { status := 200, body := Json.arr (out.map serializeUniversity) } ∧
      (∀ u ∈ out,
        (∀ c, truthy country = some c → u.country = c) ∧
        (∀ s, truthy search = some s → regexTest s u.name = true)) ∧
      List.Sorted rankingAsc out := by
  refine ⟨_, rfl, ?_, List.sorted_insertionSort rankingAsc _⟩
  intro u hu
  have hu2 : u ∈ unis.filter (universityMatches regexTest country search) :=
    (List.perm_insertionSort rankingAsc _).mem_iff.mp hu
  have hm := List.of_mem_filter hu2
  unfold universityMatches at hm
  rw [Bool.and_eq_true] at hm
  constructor
  · intro c hc
    have h1 := hm.1
    rw [hc] at h1
    simpa using h1
  · intro s hs
    have h2 := hm.2
    rw [hs] at h2
    simpa using h2

/-- Witness for C8 amended: under the fragment engine (which agrees with
PCRE on the literal pattern "ox"), searching "ox" among the two
demonstration universities returns records that all match the engine,
obey the (absent) country filter and are ranking-sorted; and "Oxford
University" does contain "ox" as a case-insensitive substring, as the
specification's example expects for a metacharacter-free search. -/
theorem universities_filters_and_ranking_sorted_witness :
    (∃ out : List University,
      apiUniversitiesGet regexFragSearchI [demoUniversity, uniAb] none
          (some "ox") =
        { status := 200, body := Json.arr (out.map serializeUniversity) } ∧
      (∀ u ∈ out,
        (∀ c, truthy (none : Option String) = some c → u.country = c) ∧
        (∀ s, truthy (some "ox") = some s →
          regexFragSearchI s u.name = true)) ∧
      List.Sorted rankingAsc out) ∧
    regexFragSearchI "ox" demoUniversity.name = true ∧
    ciSubstr demoUniversity.name "ox" :=
  ⟨universities_filters_and_ranking_sorted regexFragSearchI
      [demoUniversity, uniAb] none (some "ox"),
   rfl, by decide⟩

/-- C9: the token guard distinguishes its two rejection cases on every
protected route: a request whose Authorization header yields no bearer
token is rejected 401 "Access token required", while a present token that
fails verification is rejected 403 "Invalid or expired token"; in both
cases every protected handler returns the guard's response unchanged and
the persistent collections are untouched. -/
theorem token_guard_distinguishes_missing_and_invalid
    (verify : String → Option Claims) (authHeader : Option String)
    (results : List TestResult) (unis : List University)
    (nid now : Nat) (input : TestResultInput) (ubody : University) :
    (getToken authHeader = none →
      authenticateToken verify authHeader =
        .reject { status := 401, body := errObj "Access token required" } ∧
      apiTestResultsPost verify authHeader results nid now input =
        ({ status := 401, body := errObj "Access token required" },
         results) ∧
      apiUniversitiesPost verify authHeader unis ubody =
        ({ status := 401, body := errObj "Access token required" }, unis) ∧
      apiTestResultsGet verify authHeader results =
        { status := 401, body := errObj "Access token required" } ∧
      apiDashboardStats verify authHeader results =
        { status := 401, body := errObj "Access token required" }) ∧
    (∀ t, getToken authHeader = some t → verify t = none →
      authenticateToken verify authHeader =
        .reject { status := 403, body := errObj "Invalid or expired token" } ∧
      apiTestResultsPost verify authHeader results nid now input =
        ({ status := 403, body := errObj "Invalid or expired token" },
         results) ∧
      apiUniversitiesPost verify authHeader unis ubody =
        ({ status := 403, body := errObj "Invalid or expired token" },
         unis) ∧
      apiTestResultsGet verify authHeader results =
        { status := 403, body := errObj "Invalid or expired token" } ∧
      apiDashboardStats verify authHeader results =
        { status := 403, body := errObj "Invalid or expired token" }) := by
  constructor
  · intro ht
    have hauth : authenticateToken verify authHeader =
        .reject { status := 401, body := errObj "Access token required" } := by
      unfold authenticateToken
      rw [ht]
    refine ⟨hauth, ?_, ?_, ?_, ?_⟩
    · unfold apiTestResultsPost
      rw [hauth]
    · unfold apiUniversitiesPost
      rw [hauth]
    · unfold apiTestResultsGet
      rw [hauth]
    · unfold apiDashboardStats
      rw [hauth]
  · intro t ht hv
    have hauth : authenticateToken verify authHeader =
        .reject { status := 403,
                  body := errObj "Invalid or expired token" } := by
      unfold authenticateToken
      simp only [ht, hv]
    refine ⟨hauth, ?_, ?_, ?_, ?_⟩
    · unfold apiTestResultsPost
      rw [hauth]
    · unfold apiUniversitiesPost
      rw [hauth]
    · unfold apiTestResultsGet
      rw [hauth]
    · unfold apiDashboardStats
      rw [hauth]

/-- Witness for C9: a request with no Authorization header gets the 401
rejection with nothing stored, and a request bearing a token the verifier
rejects gets the 403 rejection with nothing stored. -/
theorem token_guard_distinguishes_missing_and_invalid_witness :
    (authenticateToken demoVerify none =
      .reject { status := 401, body := errObj "Access token required" } ∧
     apiTestResultsPost demoVerify none demoResults 9 300 demoInput =
      ({ status := 401, body := errObj "Access token required" },
       demoResults) ∧
     apiUniversitiesPost demoVerify none [demoUniversity] uniAb =
      ({ status := 401, body := errObj "Access token required" },
       [demoUniversity])) ∧
    (authenticateToken demoVerify (some "Bearer forged") =
      .reject { status := 403, body := errObj "Invalid or expired token" } ∧
     apiTestResultsPost demoVerify (some "Bearer forged") demoResults 9 300
        demoInput =
      ({ status := 403, body := errObj "Invalid or expired token" },
       demoResults) ∧
     apiUniversitiesPost demoVerify (some "Bearer forged") [demoUniversity]
        uniAb =
      ({ status := 403, body := errObj "Invalid or expired token" },
       [demoUniversity])) := by
  have h1 := (token_guard_distinguishes_missing_and_invalid demoVerify none
    demoResults [demoUniversity] 9 300 demoInput uniAb).1 rfl
  have h2 := (token_guard_distinguishes_missing_and_invalid demoVerify
    (some "Bearer forged") demoResults [demoUniversity] 9 300 demoInput
    uniAb).2 "forged" rfl rfl
  exact ⟨⟨h1.1, h1.2.1, h1.2.2.1⟩, ⟨h2.1, h2.2.1, h2.2.2.1⟩⟩

/-- Witness for C2: the theorem applied to a concrete one-question store
with an explicit limit and no difficulty filter. -/
theorem questions_response_hides_answers_witness :
    ∃ out : List Question,
      apiQuestionsGet [demoQuestion] "GRE" "Quantitative" (some 5) none =
        { status := 200,
          body := Json.arr (out.map serializeQuestionPublic) } ∧
      (∀ j ∈ out.map serializeQuestionPublic,
        "correctAnswer" ∉ j.objKeys ∧ "explanation" ∉ j.objKeys) ∧
      List.Sorted idDesc out :=
  questions_response_hides_answers_and_is_newest_first [demoQuestion]
    "GRE" "Quantitative" (some 5) none

/-- Witness for C10: the theorem applied to a concrete store with the
limit parameter absent. -/
theorem questions_default_limit_ten_witness :
    ∃ out : List Question,
      apiQuestionsGet [demoQuestion] "GRE" "Quantitative" none none =
        { status := 200,
          body := Json.arr (out.map serializeQuestionPublic) } ∧
      out.length ≤ 10 :=
  questions_default_limit_ten [demoQuestion] "GRE" "Quantitative" none

end Scholaro
